import Mathlib

/-!
# Verification of the `TrajectoryPlayback` scheduler

Shallow embedding of the `TrajectoryPlayback` class defined in
`examples/rosetta_interactive_sim.ipynb` (cell 22) of the narupa-rosetta
repository, together with proofs about its playback state machine.

Modelling conventions:

* The mutable object state (`self._run_task`, `self._cancelled`,
  `self.frame_index`, `self.frames`) becomes an explicit record
  `TrajectoryPlayback Frame`; each Python method becomes a function from
  states to states (paired with an `Option`/`Except` error component where
  the method can raise).
* The frames are `FrameData` objects that the scheduler never inspects, so
  the state is parametric in a type `Frame`.
* The external frame sink (`narupa_server.frame_publisher.send_frame`) is
  modelled by a Boolean function `sink : Nat → Frame → Bool` saying whether
  a given `send_frame` call succeeds (`true`) or raises (`false`); the
  ghost field `sent` logs the calls that completed, so that "exactly one
  emission" is a statement about the log.
* The background worker submitted by `run_playback` runs `_run`, a loop
  that cannot be written as a terminating function; it is represented by
  its loop body (`_run_pass`, one check of `self._cancelled` followed by
  either one emit-and-advance or the loop exit `_run_exit`).  If the body
  raises, `_run` dies and its future stores the exception
  (`TaskStatus.failed`); `Future.result()` then re-raises it.
* `Future.result()` inside `cancel_playback(wait=True)` on a running
  worker is genuinely racy: the worker either observes the freshly set
  flag at its next loop check and exits with no further emission, or it
  had already passed the check and performs one more emit-and-advance
  before observing the flag.  The Boolean oracle `pending` passed to
  `cancel_playback` (and to `pause`/`step`/`play`, which call it) resolves
  this race: theorems quantify over it, counterexamples pick it.
* Python `lst[i]` raising `IndexError` and `x % 0` raising
  `ZeroDivisionError` are modelled explicitly (`List.get?`, `pymod`), so
  facts such as "no division by zero happens" are provable rather than
  built in.
-/

deriving instance DecidableEq for Except

namespace NarupaRosetta

/-- Exceptions that can escape one emit-and-advance:
`indexError` for `self.frames[self.frame_index]` out of range,
`zeroDivisionError` for `% 0`, and `sinkError` for an exception raised by
the external `frame_publisher.send_frame`. -/
inductive StepError where
  | indexError
  | zeroDivisionError
  | sinkError
deriving DecidableEq, Repr

/-- Status of the `concurrent.futures.Future` stored in `self._run_task`:
the submitted call to `self._run` is still executing (`running`), has
returned (`done`), or has died with an exception that the future stores
and `result()` will re-raise (`failed`).  `Future.cancel` is never invoked
by the notebook, so a separate cancelled status is not reachable and not
modelled.  `done()` is true for both `done` and `failed` futures. -/
inductive TaskStatus where
  | running
  | done
  | failed (e : StepError)
deriving DecidableEq, Repr

/-- The `RuntimeError("The trajectory is already playing on a thread!")`
raised by `run_playback`. -/
inductive RunPlaybackError where
  | alreadyPlaying
deriving DecidableEq, Repr

/-- Exceptions that can escape a call to `play`: a `StepError` re-raised
by the `Future.result()` inside its `cancel_playback(wait=True)`, or the
`RuntimeError` from its `run_playback`. -/
inductive PlayError where
  | raised (e : StepError)
  | alreadyPlaying
deriving DecidableEq, Repr

/-- The mutable state of one `TrajectoryPlayback` object.

Fields mirror `__init__`: `run_task` is `self._run_task` (with the status
of the underlying future), `cancelled` is `self._cancelled`, `frame_index`
is `self.frame_index`, `frames` is `self.frames`.  The thread pool
`self.threads` and the reentrant lock `self._cancel_lock` carry no
per-state data in the sequential model and are omitted here (the lock is
treated in the dedicated interleaving model below).  `sent` is a ghost log
of the successful `send_frame` calls, recorded for specification purposes
only. -/
structure TrajectoryPlayback (Frame : Type) where
  run_task : Option TaskStatus
  cancelled : Bool
  frame_index : Nat
  frames : List Frame
  sent : List (Nat × Frame)
deriving DecidableEq

variable {Frame : Type}

/-- `__init__`: fresh scheduler, no task, flag clear, index 0, holding the
pre-materialised frame list (`all_framedata`). -/
def init (frames : List Frame) : TrajectoryPlayback Frame :=
  { run_task := none, cancelled := false, frame_index := 0
    frames := frames, sent := [] }

/-- `is_running`: `self._run_task is not None and not
(self._run_task.cancelled() or self._run_task.done())`.  `cancelled()` is
always false (no one calls `Future.cancel`), so this reduces to the task
existing and not being done; a `failed` future's `done()` is true. -/
def is_running (s : TrajectoryPlayback Frame) : Bool :=
  match s.run_task with
  | some TaskStatus.running => true
  | _ => false

/-- Python's `a % b` on naturals: raises `ZeroDivisionError` when `b = 0`,
otherwise the usual remainder. -/
def pymod (a b : Nat) : Except StepError Nat :=
  if b = 0 then Except.error StepError.zeroDivisionError else Except.ok (a % b)

/-- `_step_one_frame`:
```
narupa_server.frame_publisher.send_frame(self.frame_index, self.frames[self.frame_index])
self.frame_index = (self.frame_index + 1) % len(self.frames)
```
Returns the state of `self` after the call together with the exception it
raised, if any; Python mutates `self` in place, so on an exception the
state is whatever had been assigned before the raise (here: the index is
only assigned after a successful emission). -/
def step_one_frame (sink : Nat → Frame → Bool) (s : TrajectoryPlayback Frame) :
    TrajectoryPlayback Frame × Option StepError :=
  match s.frames.get? s.frame_index with
  | none => (s, some StepError.indexError)
  | some f =>
    if sink s.frame_index f then
      match pymod (s.frame_index + 1) s.frames.length with
      | Except.error e => ({ s with sent := s.sent ++ [(s.frame_index, f)] }, some e)
      | Except.ok i =>
          ({ s with sent := s.sent ++ [(s.frame_index, f)], frame_index := i }, none)
    else (s, some StepError.sinkError)

/-- The exit of the `_run` loop: the worker has observed `self._cancelled`,
the `while` ends, `self._cancelled = False` runs, and `_run` returns, at
which point the submitted future becomes done.  Note `_run` never assigns
`self._run_task = None`: the handle keeps pointing at the finished
future. -/
def run_exit (s : TrajectoryPlayback Frame) : TrajectoryPlayback Frame :=
  { s with cancelled := false
           run_task := s.run_task.map (fun _ => TaskStatus.done) }

/-- One pass through the `_run` loop:
```
while not self._cancelled:
    self._step_one_frame()
    sleep(1 / playback_fps)
self._cancelled = False
```
If the flag is clear, one emit-and-advance (the sleep changes no state);
if the flag is set, the loop exits via `run_exit`.  If the emit-and-advance
raises, the exception propagates out of `_run` (the flag clear after the
loop never runs) and the worker's future records the failure. -/
def run_pass (sink : Nat → Frame → Bool) (s : TrajectoryPlayback Frame) :
    TrajectoryPlayback Frame × Option StepError :=
  if s.cancelled then (run_exit s, none)
  else
    match step_one_frame sink s with
    | (s1, none) => (s1, none)
    | (s1, some e) => ({ s1 with run_task := some (TaskStatus.failed e) }, some e)

/-- `cancel_playback(wait)`:
```
if self._run_task is None: return
if self._cancelled: return
self._cancelled = True
if wait:
    self._run_task.result()
    self._cancelled = False
```
Returns the state of `self` after the call plus the exception, if any,
that `result()` re-raised.  `result()` on a running task blocks until the
worker observes the flag and `_run` finishes; the oracle `pending` says
whether the worker had already passed its `while not self._cancelled`
check when the flag was set (`true`: it performs one more emit-and-advance
before observing the flag; if that raises, `_run` dies without clearing
the flag, its future records the exception and `result()` re-raises it, so
the caller's own `self._cancelled = False` is skipped too).  `result()` on
a done task returns immediately; on a failed task it re-raises the stored
exception, again skipping the caller's flag clear. -/
def cancel_playback (wait pending : Bool) (sink : Nat → Frame → Bool)
    (s : TrajectoryPlayback Frame) :
    TrajectoryPlayback Frame × Option StepError :=
  match s.run_task with
  | none => (s, none)
  | some t =>
    if s.cancelled then (s, none)
    else if wait then
      match t with
      | TaskStatus.running =>
        if pending then
          match step_one_frame sink { s with cancelled := true } with
          | (s2, none) => ({ run_exit s2 with cancelled := false }, none)
          | (s2, some e) =>
              ({ s2 with run_task := some (TaskStatus.failed e) }, some e)
        else
          ({ run_exit { s with cancelled := true } with cancelled := false }, none)
      | TaskStatus.done =>
          ({ { s with cancelled := true } with cancelled := false }, none)
      | TaskStatus.failed e => ({ s with cancelled := true }, some e)
    else ({ s with cancelled := true }, none)

/-- `pause`: `with self._cancel_lock: self.cancel_playback(wait=True)`.
Propagates whatever the cancellation re-raised. -/
def pause (pending : Bool) (sink : Nat → Frame → Bool)
    (s : TrajectoryPlayback Frame) : TrajectoryPlayback Frame × Option StepError :=
  cancel_playback true pending sink s

/-- `run_playback` with the default `block=False` (the only way the
notebook calls it): raise if a worker is active, otherwise submit `_run`
to the single-thread pool and store the fresh (running) future.  The
`block=True` branch runs `_run` on the caller's own thread and is never
used by the notebook. -/
def run_playback (s : TrajectoryPlayback Frame) :
    Except RunPlaybackError (TrajectoryPlayback Frame) :=
  if is_running s then Except.error RunPlaybackError.alreadyPlaying
  else Except.ok { s with run_task := some TaskStatus.running }

/-- `play`:
```
with self._cancel_lock:
    self.cancel_playback(wait=True)
self.run_playback()
```
(the lock is released before `run_playback`).  An exception re-raised by
the cancellation propagates before `run_playback` is reached. -/
def play (pending : Bool) (sink : Nat → Frame → Bool)
    (s : TrajectoryPlayback Frame) : TrajectoryPlayback Frame × Option PlayError :=
  match cancel_playback true pending sink s with
  | (s1, some e) => (s1, some (PlayError.raised e))
  | (s1, none) =>
    match run_playback s1 with
    | Except.error _ => (s1, some PlayError.alreadyPlaying)
    | Except.ok s2 => (s2, none)

/-- `step`:
```
with self._cancel_lock:
    self.cancel_playback(wait=True)
    self._step_one_frame()
```
An exception re-raised by the cancellation propagates before the method's
own `_step_one_frame` runs. -/
def step (pending : Bool) (sink : Nat → Frame → Bool)
    (s : TrajectoryPlayback Frame) : TrajectoryPlayback Frame × Option StepError :=
  match cancel_playback true pending sink s with
  | (s1, none) => step_one_frame sink s1
  | (s1, some e) => (s1, some e)

/-- `reset`: `self.frame_index = 0`. -/
def reset (s : TrajectoryPlayback Frame) : TrajectoryPlayback Frame :=
  { s with frame_index := 0 }

/-- `k` consecutive calls to `step`, stopping at the first exception. -/
def stepN (pending : Bool) (sink : Nat → Frame → Bool) :
    Nat → TrajectoryPlayback Frame → TrajectoryPlayback Frame × Option StepError
  | 0, s => (s, none)
  | Nat.succ k, s =>
    match step pending sink s with
    | (s1, none) => stepN pending sink k s1
    | (s1, some e) => (s1, some e)

/-- A sink whose `send_frame` never raises. -/
def okSink : Nat → Frame → Bool := fun _ _ => true

/-!
## Interleaving model of two concurrent `play()` callers

`play` acquires `self._cancel_lock` only around `self.cancel_playback(wait=True)`
and calls `self.run_playback()` after releasing it, so the `is_running` check
and the `threads.submit` inside `run_playback` run without any lock.  To
examine what the lock does and does not serialize, the following small-step
system runs two threads (`false` = A, `true` = B), each executing the body of
`play` on a shared fresh scheduler, at the granularity of the lock and of the
shared-variable accesses.  Within the modelled window no worker completes on
its own (the cancellation flag is only set, and immediately consumed, inside
`cancel_playback(wait=True)`), so the scheduler's `_cancelled`/`frame_index`
fields play no role and the shared state reduces to the lock, the stored task
handle, and the thread pool's occupancy.
-/

/-- Status of a future submitted to the `max_workers=1` pool, within the
modelled window: `executing` (the pool thread runs its `_run`), `queued`
(submitted while the pool thread is busy; `done()` and `cancelled()` are both
false for it), or `finished` (its `_run` returned). -/
inductive PoolTask where
  | executing
  | queued
  | finished
deriving DecidableEq, Repr

/-- Shared state of the two racing `play` callers: who holds
`self._cancel_lock`, each thread's program counter and whether it raised the
`RuntimeError`, the current `self._run_task` handle, the total number of
`threads.submit` calls made, and how many submitted tasks the pool is
executing right now (`max_workers=1`). -/
structure PlayRace where
  lock : Option Bool
  pcA : Nat
  pcB : Nat
  raisedA : Bool
  raisedB : Bool
  handle : Option PoolTask
  submits : Nat
  execCount : Nat
deriving DecidableEq, Repr

/-- Program counter of thread `t`. -/
def pcOf (t : Bool) (s : PlayRace) : Nat :=
  if t then s.pcB else s.pcA

/-- Set the program counter of thread `t`. -/
def setPc (t : Bool) (pc : Nat) (s : PlayRace) : PlayRace :=
  if t then { s with pcB := pc } else { s with pcA := pc }

/-- Record that thread `t` raised the `RuntimeError` from `run_playback`. -/
def setRaised (t : Bool) (s : PlayRace) : PlayRace :=
  if t then { s with raisedB := true } else { s with raisedA := true }

/-- Net effect of `self.cancel_playback(wait=True)` run under the lock by one
of the racing callers.  `handle = none`: early return.  `handle = finished`:
the flag is set, `result()` returns at once, the flag is cleared — no net
change.  `handle = executing`: the flag is set, the worker observes it at its
next loop check and `_run` returns (clearing the flag), `result()` returns —
the executing task finishes and frees the pool thread.  `handle = queued` is
not reachable while any thread is still before its submit, and is left
unchanged. -/
def cancelSys (s : PlayRace) : PlayRace :=
  match s.handle with
  | some PoolTask.executing =>
      { s with handle := some PoolTask.finished, execCount := s.execCount - 1 }
  | _ => s

/-- `self.is_running` on the shared state: the stored future exists and is
neither done nor cancelled (an `executing` or `queued` future is "running" by
this test; a queued future's `done()` is false). -/
def isRunningSys (s : PlayRace) : Bool :=
  match s.handle with
  | none => false
  | some PoolTask.finished => false
  | some _ => true

/-- `self._run_task = self.threads.submit(self._run)`: one more submit; the
pool starts it at once if its single thread is free, otherwise the task is
queued behind the executing one.  The handle is overwritten either way. -/
def submitSys (s : PlayRace) : PlayRace :=
  if s.execCount = 0 then
    { s with handle := some PoolTask.executing, submits := s.submits + 1
             execCount := 1 }
  else
    { s with handle := some PoolTask.queued, submits := s.submits + 1 }

/-- One atomic step of thread `t` executing the body of `play`:
pc 0: `with self._cancel_lock:` — acquire (no step while held by the other);
pc 1: `self.cancel_playback(wait=True)` (under the lock);
pc 2: leave the `with` block — release the lock;
pc 3: the `if self.is_running:` guard of `run_playback` — without the lock;
pc 4: the `threads.submit` of `run_playback` — without the lock;
pc 5: returned (or raised). -/
def stepSys (t : Bool) (s : PlayRace) : PlayRace :=
  match pcOf t s with
  | 0 => match s.lock with
         | none => setPc t 1 { s with lock := some t }
         | some _ => s
  | 1 => setPc t 2 (cancelSys s)
  | 2 => setPc t 3 { s with lock := none }
  | 3 => if isRunningSys s then setPc t 5 (setRaised t s) else setPc t 4 s
  | 4 => setPc t 5 (submitSys s)
  | _ => s

/-- Both callers start on a fresh scheduler (`__init__` state): lock free,
no task, nothing submitted, pool idle. -/
def raceInit : PlayRace :=
  { lock := none, pcA := 0, pcB := 0, raisedA := false, raisedB := false
    handle := none, submits := 0, execCount := 0 }

/-- Run a schedule (list of thread ids, `false` = A, `true` = B) from
`raceInit`. -/
def runSched (sched : List Bool) : PlayRace :=
  sched.foldl (fun s t => stepSys t s) raceInit

end NarupaRosetta

namespace NarupaRosetta

/-! ## Helper lemmas -/

variable {Frame : Type}

/-- `_step_one_frame` never touches the task handle, the cancellation flag
or the frame list, whether it raises or not. -/
theorem step_one_frame_skeleton (sink : Nat → Frame → Bool)
    (s : TrajectoryPlayback Frame) :
    (step_one_frame sink s).1.frames = s.frames ∧
    (step_one_frame sink s).1.run_task = s.run_task ∧
    (step_one_frame sink s).1.cancelled = s.cancelled := by
  unfold step_one_frame
  split
  · exact ⟨rfl, rfl, rfl⟩
  · split
    · split
      · exact ⟨rfl, rfl, rfl⟩
      · exact ⟨rfl, rfl, rfl⟩
    · exact ⟨rfl, rfl, rfl⟩

/-- `_step_one_frame` keeps the index inside the frame list whenever it was
inside before the call, whatever the sink does. -/
theorem step_one_frame_index_lt (sink : Nat → Frame → Bool)
    (s : TrajectoryPlayback Frame) (hI : s.frame_index < s.frames.length) :
    (step_one_frame sink s).1.frame_index < (step_one_frame sink s).1.frames.length := by
  have hN : s.frames.length ≠ 0 := by omega
  obtain ⟨f, hf⟩ : ∃ f, s.frames.get? s.frame_index = some f :=
    ⟨_, List.get?_eq_get hI⟩
  simp only [List.get?_eq_getElem?] at hf
  rcases hsf : sink s.frame_index f with _ | _
  · simpa [step_one_frame, hf, hsf] using hI
  · simp [step_one_frame, hf, hsf, pymod, hN]
    exact Nat.mod_lt _ (by omega)

/-- `cancel_playback` never changes the frame list, for any wait/pending
combination and any sink. -/
theorem cancel_playback_frames (w pending : Bool) (sink : Nat → Frame → Bool)
    (s : TrajectoryPlayback Frame) :
    (cancel_playback w pending sink s).1.frames = s.frames := by
  rcases s with ⟨task, c, i, fs, out⟩
  rcases task with _ | t
  · rfl
  · cases c
    · cases w
      · rfl
      · cases t
        · cases pending
          · rfl
          · rcases hso : step_one_frame sink
              { run_task := some TaskStatus.running, cancelled := true
                frame_index := i, frames := fs, sent := out } with ⟨s2, e2⟩
            obtain ⟨hskf, -, -⟩ := step_one_frame_skeleton sink
              { run_task := some TaskStatus.running, cancelled := true
                frame_index := i, frames := fs, sent := out }
            rw [hso] at hskf
            have hred : cancel_playback true true sink
                { run_task := some TaskStatus.running, cancelled := false
                  frame_index := i, frames := fs, sent := out } =
                (match step_one_frame sink
                  { run_task := some TaskStatus.running, cancelled := true
                    frame_index := i, frames := fs, sent := out } with
                 | (s2, none) => ({ run_exit s2 with cancelled := false }, none)
                 | (s2, some e) =>
                     ({ s2 with run_task := some (TaskStatus.failed e) }, some e)) := rfl
            rw [hred, hso]
            cases e2
            · exact hskf
            · exact hskf
        · rfl
        · rfl
    · rfl

/-- `cancel_playback` keeps the frame index inside the frame list, for any
wait/pending combination and any sink: either the index is untouched, or a
pending worker iteration advanced it modulo the length. -/
theorem cancel_playback_index_lt (w pending : Bool) (sink : Nat → Frame → Bool)
    (s : TrajectoryPlayback Frame) (hI : s.frame_index < s.frames.length) :
    (cancel_playback w pending sink s).1.frame_index <
      (cancel_playback w pending sink s).1.frames.length := by
  rcases s with ⟨task, c, i, fs, out⟩
  rcases task with _ | t
  · exact hI
  · cases c
    · cases w
      · exact hI
      · cases t
        · cases pending
          · exact hI
          · rcases hso : step_one_frame sink
              { run_task := some TaskStatus.running, cancelled := true
                frame_index := i, frames := fs, sent := out } with ⟨s2, e2⟩
            have hlt := step_one_frame_index_lt sink
              { run_task := some TaskStatus.running, cancelled := true
                frame_index := i, frames := fs, sent := out } hI
            rw [hso] at hlt
            have hred : cancel_playback true true sink
                { run_task := some TaskStatus.running, cancelled := false
                  frame_index := i, frames := fs, sent := out } =
                (match step_one_frame sink
                  { run_task := some TaskStatus.running, cancelled := true
                    frame_index := i, frames := fs, sent := out } with
                 | (s2, none) => ({ run_exit s2 with cancelled := false }, none)
                 | (s2, some e) =>
                     ({ s2 with run_task := some (TaskStatus.failed e) }, some e)) := rfl
            rw [hred, hso]
            cases e2
            · exact hlt
            · exact hlt
        · exact hI
        · exact hI
    · exact hI

/-- A quiet waiting cancellation: if no worker iteration is pending (the
worker, if running with the flag clear, is at its loop check) and no crashed
future is waiting to re-raise, then `cancel_playback(wait=True)` raises
nothing, performs no emission, does not move the index, and the resulting
state is again quiet for the same `pending`. -/
theorem cancel_playback_quiet (pending : Bool) (sink : Nat → Frame → Bool)
    (s : TrajectoryPlayback Frame)
    (hq1 : s.run_task = some TaskStatus.running → s.cancelled = false → pending = false)
    (hq2 : ∀ e, s.run_task = some (TaskStatus.failed e) → s.cancelled = true) :
    (cancel_playback true pending sink s).2 = none ∧
    (cancel_playback true pending sink s).1.frame_index = s.frame_index ∧
    (cancel_playback true pending sink s).1.frames = s.frames ∧
    (cancel_playback true pending sink s).1.sent = s.sent ∧
    ((cancel_playback true pending sink s).1.run_task = some TaskStatus.running →
      (cancel_playback true pending sink s).1.cancelled = false → pending = false) ∧
    (∀ e, (cancel_playback true pending sink s).1.run_task = some (TaskStatus.failed e) →
      (cancel_playback true pending sink s).1.cancelled = true) := by
  rcases s with ⟨task, c, i, fs, out⟩
  rcases task with _ | t
  · exact ⟨rfl, rfl, rfl, rfl, hq1, hq2⟩
  · cases c
    · cases t
      · have hp : pending = false := hq1 rfl rfl
        subst hp
        refine ⟨rfl, rfl, rfl, rfl, fun _ _ => rfl, ?_⟩
        intro e h
        simp [cancel_playback, run_exit] at h
      · refine ⟨rfl, rfl, rfl, rfl, ?_, ?_⟩
        · intro h h2
          simp [cancel_playback] at h
        · intro e h
          simp [cancel_playback] at h
      · rename_i e
        exact absurd (hq2 e rfl) (by simp)
    · exact ⟨rfl, rfl, rfl, rfl, hq1, hq2⟩

/-- A successful emit-and-advance: with the sink succeeding and the index in
range, `_step_one_frame` raises nothing, advances the index modulo the
length, appends exactly one entry to the emission log, and leaves everything
else alone. -/
theorem step_one_frame_ok (sink : Nat → Frame → Bool) (s : TrajectoryPlayback Frame)
    (hI : s.frame_index < s.frames.length) (hsink : ∀ i f, sink i f = true) :
    (step_one_frame sink s).2 = none ∧
    (step_one_frame sink s).1.frame_index = (s.frame_index + 1) % s.frames.length ∧
    (step_one_frame sink s).1.frames = s.frames ∧
    (step_one_frame sink s).1.sent.length = s.sent.length + 1 := by
  have hN : s.frames.length ≠ 0 := by omega
  obtain ⟨f, hf⟩ : ∃ f, s.frames.get? s.frame_index = some f :=
    ⟨_, List.get?_eq_get hI⟩
  simp only [List.get?_eq_getElem?] at hf
  simp [step_one_frame, hf, hsink, pymod, hN]

/-- `step` from a quiet state, under a succeeding sink: no exception, one
log entry, one index advance, frames untouched, and the result is again
quiet. -/
theorem step_quiet_ok (pending : Bool) (sink : Nat → Frame → Bool)
    (s : TrajectoryPlayback Frame)
    (hsink : ∀ i f, sink i f = true) (hI : s.frame_index < s.frames.length)
    (hq1 : s.run_task = some TaskStatus.running → s.cancelled = false → pending = false)
    (hq2 : ∀ e, s.run_task = some (TaskStatus.failed e) → s.cancelled = true) :
    (step pending sink s).2 = none ∧
    (step pending sink s).1.frame_index = (s.frame_index + 1) % s.frames.length ∧
    (step pending sink s).1.frames = s.frames ∧
    (step pending sink s).1.sent.length = s.sent.length + 1 ∧
    ((step pending sink s).1.run_task = some TaskStatus.running →
      (step pending sink s).1.cancelled = false → pending = false) ∧
    (∀ e, (step pending sink s).1.run_task = some (TaskStatus.failed e) →
      (step pending sink s).1.cancelled = true) := by
  obtain ⟨hc2, hci, hcf, hcs, hcq1, hcq2⟩ := cancel_playback_quiet pending sink s hq1 hq2
  rcases hc : cancel_playback true pending sink s with ⟨s1, e1⟩
  rw [hc] at hc2 hci hcf hcs hcq1 hcq2
  obtain rfl : e1 = none := hc2
  have hstep : step pending sink s = step_one_frame sink s1 := by
    show (match cancel_playback true pending sink s with
          | (s1, none) => step_one_frame sink s1
          | (s1, some e) => (s1, some e)) = step_one_frame sink s1
    rw [hc]
  have hI1 : s1.frame_index < s1.frames.length := by
    show (s1, (none : Option StepError)).1.frame_index <
      (s1, (none : Option StepError)).1.frames.length
    rw [hci, hcf]; exact hI
  obtain ⟨h2, hidx, hfr, hsent⟩ := step_one_frame_ok sink s1 hI1 hsink
  obtain ⟨hskf, hskt, hskc⟩ := step_one_frame_skeleton sink s1
  refine ⟨?_, ?_, ?_, ?_, ?_, ?_⟩ <;> rw [hstep]
  · exact h2
  · rw [hidx]; rw [show s1.frame_index = s.frame_index from hci,
      show s1.frames = s.frames from hcf]
  · rw [hfr]; exact hcf
  · rw [hsent]; rw [show s1.sent = s.sent from hcs]
  · rw [hskt, hskc]; exact hcq1
  · intro e; rw [hskt, hskc]; exact hcq2 e

/-- Iterated `step` from a quiet state under a succeeding sink: `k` steps
raise nothing, advance the index by `k` modulo the length, append `k` log
entries, and keep the frame list. -/
theorem stepN_quiet_ok (pending : Bool) (sink : Nat → Frame → Bool)
    (hsink : ∀ i f, sink i f = true) :
    ∀ (k : Nat) (s : TrajectoryPlayback Frame),
      s.frame_index < s.frames.length →
      (s.run_task = some TaskStatus.running → s.cancelled = false → pending = false) →
      (∀ e, s.run_task = some (TaskStatus.failed e) → s.cancelled = true) →
      (stepN pending sink k s).2 = none ∧
      (stepN pending sink k s).1.frame_index = (s.frame_index + k) % s.frames.length ∧
      (stepN pending sink k s).1.frames = s.frames ∧
      (stepN pending sink k s).1.sent.length = s.sent.length + k := by
  intro k
  induction k with
  | zero =>
    intro s hI hq1 hq2
    refine ⟨rfl, ?_, rfl, rfl⟩
    show s.frame_index = (s.frame_index + 0) % s.frames.length
    rw [Nat.add_zero, Nat.mod_eq_of_lt hI]
  | succ k ih =>
    intro s hI hq1 hq2
    obtain ⟨h2, hidx, hfr, hsent, hpq1, hpq2⟩ :=
      step_quiet_ok pending sink s hsink hI hq1 hq2
    rcases hstep : step pending sink s with ⟨s1, e⟩
    rw [hstep] at h2 hidx hfr hsent hpq1 hpq2
    obtain rfl : e = none := h2
    have hN : 0 < s.frames.length := by omega
    have hI1 : s1.frame_index < s1.frames.length := by
      show (s1, (none : Option StepError)).1.frame_index <
        (s1, (none : Option StepError)).1.frames.length
      rw [hidx, hfr]; exact Nat.mod_lt _ hN
    obtain ⟨ih2, ihidx, ihfr, ihsent⟩ := ih s1 hI1 hpq1 hpq2
    have hunfold : stepN pending sink (k + 1) s = stepN pending sink k s1 := by
      show (match step pending sink s with
            | (s1, none) => stepN pending sink k s1
            | (s1, some e) => (s1, some e)) = stepN pending sink k s1
      rw [hstep]
    refine ⟨?_, ?_, ?_, ?_⟩ <;> rw [hunfold]
    · exact ih2
    · rw [ihidx]
      rw [show s1.frame_index = (s.frame_index + 1) % s.frames.length from hidx,
        show s1.frames = s.frames from hfr, Nat.mod_add_mod]
      congr 1
      omega
    · rw [ihfr]; exact hfr
    · rw [ihsent]
      rw [show s1.sent.length = s.sent.length + 1 from hsent]
      omega

/-- Inversion for `run_playback`: a successful call stores a fresh running
task and changes nothing else. -/
theorem run_playback_ok (s s' : TrajectoryPlayback Frame)
    (h : run_playback s = Except.ok s') :
    s' = { s with run_task := some TaskStatus.running } := by
  unfold run_playback at h
  split at h
  · cases h
  · cases h; rfl

/-- A worker-loop pass keeps the index inside the frame list. -/
theorem run_pass_index_lt (sink : Nat → Frame → Bool)
    (s : TrajectoryPlayback Frame) (hI : s.frame_index < s.frames.length) :
    (run_pass sink s).1.frame_index < (run_pass sink s).1.frames.length := by
  unfold run_pass
  split
  · exact hI
  · have hlt := step_one_frame_index_lt sink s hI
    rcases hso : step_one_frame sink s with ⟨s1, e1⟩
    rw [hso] at hlt
    cases e1
    · exact hlt
    · exact hlt

/-- `step` keeps the index inside the frame list, for any pending/sink
behaviour, whether the cancellation re-raised or not. -/
theorem step_index_lt (pending : Bool) (sink : Nat → Frame → Bool)
    (s : TrajectoryPlayback Frame) (hI : s.frame_index < s.frames.length) :
    (step pending sink s).1.frame_index < (step pending sink s).1.frames.length := by
  have hclt := cancel_playback_index_lt true pending sink s hI
  rcases hc : cancel_playback true pending sink s with ⟨s1, e1⟩
  rw [hc] at hclt
  cases e1 with
  | none =>
    have hst : step pending sink s = step_one_frame sink s1 := by
      simp [step, hc]
    rw [hst]
    exact step_one_frame_index_lt sink s1 hclt
  | some e =>
    have hst : step pending sink s = (s1, some e) := by
      simp [step, hc]
    rw [hst]
    exact hclt

/-- `play` keeps the index inside the frame list, for any pending/sink
behaviour and whichever exit path it takes. -/
theorem play_index_lt (pending : Bool) (sink : Nat → Frame → Bool)
    (s : TrajectoryPlayback Frame) (hI : s.frame_index < s.frames.length) :
    (play pending sink s).1.frame_index < (play pending sink s).1.frames.length := by
  have hclt := cancel_playback_index_lt true pending sink s hI
  rcases hc : cancel_playback true pending sink s with ⟨s1, e1⟩
  rw [hc] at hclt
  cases e1 with
  | none =>
    rcases hr : run_playback s1 with e2 | s2
    · have hplay : play pending sink s = (s1, some PlayError.alreadyPlaying) := by
        simp [play, hc, hr]
      rw [hplay]
      exact hclt
    · have hs2 := run_playback_ok s1 s2 hr
      have hplay : play pending sink s = (s2, none) := by
        simp [play, hc, hr]
      rw [hplay]
      subst hs2
      exact hclt
  | some e =>
    have hplay : play pending sink s = (s1, some (PlayError.raised e)) := by
      simp [play, hc]
    rw [hplay]
    exact hclt

/-! ## Claims -/

/-- C1 (counterexample): two reachable idle states on which `cancel_playback`
is not a no-op.  (1) After a worker runs to completion cleanly (start
playback on one frame, cancel with `wait=True`), the done future stays in
the never-cleared handle, so `cancel_playback(wait=False)` passes both early
returns and sets the cancellation flag — a state change.  (2) After `play()`
on an empty sequence the worker dies with an `IndexError`; on that idle
state `cancel_playback(wait=True)` re-raises the stored exception from
`Future.result()` and, skipping its own `self._cancelled = False`, leaves
the flag set — an exception and a state change. -/
theorem cancel_playback_idle_cex :
    run_playback (init ([0] : List Nat)) =
      Except.ok { run_task := some TaskStatus.running, cancelled := false
                  frame_index := 0, frames := [0], sent := [] } ∧
    cancel_playback true false okSink
      { run_task := some TaskStatus.running, cancelled := false
        frame_index := 0, frames := ([0] : List Nat), sent := [] } =
      ({ run_task := some TaskStatus.done, cancelled := false
         frame_index := 0, frames := [0], sent := [] }, none) ∧
    is_running
      { run_task := some TaskStatus.done, cancelled := false
        frame_index := 0, frames := ([0] : List Nat), sent := [] } = false ∧
    cancel_playback false false okSink
      { run_task := some TaskStatus.done, cancelled := false
        frame_index := 0, frames := ([0] : List Nat), sent := [] } ≠
      ({ run_task := some TaskStatus.done, cancelled := false
         frame_index := 0, frames := [0], sent := [] }, none) ∧
    play false okSink (init ([] : List Nat)) =
      ({ run_task := some TaskStatus.running, cancelled := false
         frame_index := 0, frames := [], sent := [] }, none) ∧
    run_pass okSink
      { run_task := some TaskStatus.running, cancelled := false
        frame_index := 0, frames := ([] : List Nat), sent := [] } =
      ({ run_task := some (TaskStatus.failed StepError.indexError)
         cancelled := false, frame_index := 0, frames := [], sent := [] },
       some StepError.indexError) ∧
    is_running
      { run_task := some (TaskStatus.failed StepError.indexError)
        cancelled := false, frame_index := 0, frames := ([] : List Nat)
        sent := [] } = false ∧
    cancel_playback true false okSink
      { run_task := some (TaskStatus.failed StepError.indexError)
        cancelled := false, frame_index := 0, frames := ([] : List Nat)
        sent := [] } =
      ({ run_task := some (TaskStatus.failed StepError.indexError)
         cancelled := true, frame_index := 0, frames := [], sent := [] },
       some StepError.indexError) := by decide

/-- C1 (amended): on an idle scheduler (`is_running` false) the stored task
is absent, done, or crashed, and `cancel_playback` behaves as follows: it is
a strict no-op (no exception, no state change) when no task handle is stored
or when the cancellation flag is already set; when a cleanly completed
future sits in the never-cleared handle, `wait=True` is a no-op but
`wait=False` sets the cancellation flag (and changes nothing else); when a
crashed future sits in the handle, `wait=True` re-raises its stored
exception and leaves the flag set, while `wait=False` only sets the flag. -/
theorem cancel_playback_idle_noop (pending : Bool) (sink : Nat → Frame → Bool)
    (s : TrajectoryPlayback Frame) (h : is_running s = false) :
    (s.run_task = none ∨ s.run_task = some TaskStatus.done ∨
      ∃ e, s.run_task = some (TaskStatus.failed e)) ∧
    (s.run_task = none → ∀ w, cancel_playback w pending sink s = (s, none)) ∧
    (s.cancelled = true → ∀ w, cancel_playback w pending sink s = (s, none)) ∧
    (s.run_task = some TaskStatus.done → s.cancelled = false →
      cancel_playback true pending sink s = (s, none) ∧
      cancel_playback false pending sink s = ({ s with cancelled := true }, none)) ∧
    (∀ e, s.run_task = some (TaskStatus.failed e) → s.cancelled = false →
      cancel_playback true pending sink s = ({ s with cancelled := true }, some e) ∧
      cancel_playback false pending sink s = ({ s with cancelled := true }, none)) := by
  rcases s with ⟨task, c, i, fs, out⟩
  refine ⟨?_, ?_, ?_, ?_, ?_⟩
  · rcases task with _ | t
    · exact Or.inl rfl
    · cases t
      · simp [is_running] at h
      · exact Or.inr (Or.inl rfl)
      · rename_i e
        exact Or.inr (Or.inr ⟨e, rfl⟩)
  · intro ht w
    have ht' : task = none := ht
    subst ht'
    rfl
  · intro hc w
    have hc' : c = true := hc
    subst hc'
    rcases task with _ | t
    · rfl
    · rfl
  · intro ht hc
    have ht' : task = some TaskStatus.done := ht
    have hc' : c = false := hc
    subst ht'; subst hc'
    exact ⟨rfl, rfl⟩
  · intro e ht hc
    have ht' : task = some (TaskStatus.failed e) := ht
    have hc' : c = false := hc
    subst ht'; subst hc'
    exact ⟨rfl, rfl⟩

/-- Witness for C1's amended theorem: on an idle scheduler holding a cleanly
done future with the flag clear, a waiting cancel is a no-op and a
non-waiting cancel just sets the flag; on one holding a crashed future, a
waiting cancel re-raises the stored error with the flag left set. -/
theorem cancel_playback_idle_noop_witness :
    cancel_playback true false okSink
      { run_task := some TaskStatus.done, cancelled := false
        frame_index := 0, frames := ([0] : List Nat), sent := [] } =
      ({ run_task := some TaskStatus.done, cancelled := false
         frame_index := 0, frames := [0], sent := [] }, none) ∧
    cancel_playback false false okSink
      { run_task := some TaskStatus.done, cancelled := false
        frame_index := 0, frames := ([0] : List Nat), sent := [] } =
      ({ run_task := some TaskStatus.done, cancelled := true
         frame_index := 0, frames := [0], sent := [] }, none) ∧
    cancel_playback true false okSink
      { run_task := some (TaskStatus.failed StepError.indexError)
        cancelled := false, frame_index := 0, frames := ([] : List Nat)
        sent := [] } =
      ({ run_task := some (TaskStatus.failed StepError.indexError)
         cancelled := true, frame_index := 0, frames := [], sent := [] },
       some StepError.indexError) := by
  obtain ⟨-, -, -, h4, -⟩ := cancel_playback_idle_noop false okSink
    { run_task := some TaskStatus.done, cancelled := false
      frame_index := 0, frames := ([0] : List Nat), sent := [] } (by decide)
  obtain ⟨ha, hb⟩ := h4 rfl rfl
  obtain ⟨-, -, -, -, h5⟩ := cancel_playback_idle_noop false okSink
    { run_task := some (TaskStatus.failed StepError.indexError)
      cancelled := false, frame_index := 0, frames := ([] : List Nat)
      sent := [] } (by decide)
  obtain ⟨hc, -⟩ := h5 StepError.indexError rfl rfl
  exact ⟨ha, hb, hc⟩

/-- C2 (counterexample): when the worker observes the cancellation flag and
exits its loop, the stored task handle is not cleared — `_run` never assigns
`self._run_task = None` — so the handle still holds the (now done) task,
contradicting the claim that the running-task handle is cleared. -/
theorem worker_exit_handle_cex :
    (run_exit { run_task := some TaskStatus.running, cancelled := true
                frame_index := 0, frames := ([0] : List Nat), sent := [] }).run_task ≠
      none := by decide

/-- C2 (amended): when the worker observes the cancellation flag (a loop
pass with the flag set), the loop exits, the flag is cleared and the task
becomes done — so `is_running` is false afterwards — but the stored task
handle is not cleared: it keeps pointing at the finished task. -/
theorem worker_exit_state (sink : Nat → Frame → Bool)
    (s : TrajectoryPlayback Frame) (h : s.cancelled = true) :
    run_pass sink s = (run_exit s, none) ∧
    (run_exit s).cancelled = false ∧
    is_running (run_exit s) = false ∧
    (run_exit s).run_task.isSome = s.run_task.isSome := by
  refine ⟨by simp [run_pass, h], rfl, ?_, ?_⟩
  · rcases s with ⟨task, c, i, fs, out⟩
    rcases task with _ | t <;> simp [run_exit, is_running]
  · rcases s with ⟨task, c, i, fs, out⟩
    rcases task with _ | t <;> simp [run_exit]

/-- Witness for C2's amended theorem, on a cancelled running worker. -/
theorem worker_exit_state_witness :
    run_pass okSink
      { run_task := some TaskStatus.running, cancelled := true
        frame_index := 0, frames := ([0] : List Nat), sent := [] } =
      (run_exit
        { run_task := some TaskStatus.running, cancelled := true
          frame_index := 0, frames := ([0] : List Nat), sent := [] }, none) ∧
    (run_exit
      { run_task := some TaskStatus.running, cancelled := true
        frame_index := 0, frames := ([0] : List Nat), sent := [] }).cancelled = false ∧
    is_running (run_exit
      { run_task := some TaskStatus.running, cancelled := true
        frame_index := 0, frames := ([0] : List Nat), sent := [] }) = false ∧
    (run_exit
      { run_task := some TaskStatus.running, cancelled := true
        frame_index := 0, frames := ([0] : List Nat), sent := [] }).run_task.isSome =
      (some TaskStatus.running).isSome :=
  worker_exit_state okSink _ (by decide)

/-- C3 (counterexample): after `cancel_playback(wait=False)` on a running
worker — task still running, flag set — a subsequent `pause()` or
`cancel_playback(wait=True)` hits the `if self._cancelled: return` early
exit and returns without waiting, so `is_running` is still true when it
returns.  The state is reachable from a fresh scheduler. -/
theorem is_running_after_stop_cex :
    run_playback (init ([0] : List Nat)) =
      Except.ok { run_task := some TaskStatus.running, cancelled := false
                  frame_index := 0, frames := [0], sent := [] } ∧
    cancel_playback false false okSink
      { run_task := some TaskStatus.running, cancelled := false
        frame_index := 0, frames := ([0] : List Nat), sent := [] } =
      ({ run_task := some TaskStatus.running, cancelled := true
         frame_index := 0, frames := [0], sent := [] }, none) ∧
    is_running (pause false okSink
      { run_task := some TaskStatus.running, cancelled := true
        frame_index := 0, frames := ([0] : List Nat), sent := [] }).1 = true ∧
    is_running (cancel_playback true false okSink
      { run_task := some TaskStatus.running, cancelled := true
        frame_index := 0, frames := ([0] : List Nat), sent := [] }).1 = true := by decide

/-- C3 (amended): `is_running` is false immediately after construction, and
false immediately after `pause()` or `cancel_playback(wait=True)` returns,
provided no non-waiting cancellation is already pending on a still-running
worker (in that one case the waiting call returns early without waiting and
the worker may still be running).  This holds for every resolution of the
cancellation race and every sink behaviour: whether the worker exits at its
loop check, emits once more first, or dies raising, the future is done when
the call finishes. -/
theorem is_running_after_stop (pending : Bool) (sink : Nat → Frame → Bool)
    (frames : List Frame) (s : TrajectoryPlayback Frame)
    (h : s.cancelled = false ∨ is_running s = false) :
    is_running (init frames) = false ∧
    is_running (pause pending sink s).1 = false ∧
    is_running (cancel_playback true pending sink s).1 = false := by
  have hc : is_running (cancel_playback true pending sink s).1 = false := by
    rcases s with ⟨task, c, i, fs, out⟩
    rcases task with _ | t
    · rfl
    · cases c
      · cases t
        · -- running worker, flag clear
          cases pending
          · rfl
          · rcases hso : step_one_frame sink
              { run_task := some TaskStatus.running, cancelled := true
                frame_index := i, frames := fs, sent := out } with ⟨s2, e2⟩
            obtain ⟨-, hskt, -⟩ := step_one_frame_skeleton sink
              { run_task := some TaskStatus.running, cancelled := true
                frame_index := i, frames := fs, sent := out }
            rw [hso] at hskt
            have hred : cancel_playback true true sink
                { run_task := some TaskStatus.running, cancelled := false
                  frame_index := i, frames := fs, sent := out } =
                (match step_one_frame sink
                  { run_task := some TaskStatus.running, cancelled := true
                    frame_index := i, frames := fs, sent := out } with
                 | (s2, none) => ({ run_exit s2 with cancelled := false }, none)
                 | (s2, some e) =>
                     ({ s2 with run_task := some (TaskStatus.failed e) }, some e)) := rfl
            rw [hred, hso]
            cases e2
            · show is_running { run_exit s2 with cancelled := false } = false
              simp [is_running, run_exit, show s2.run_task = some TaskStatus.running from hskt]
            · show is_running
                { s2 with run_task := some (TaskStatus.failed _) } = false
              simp [is_running]
        · rfl
        · rfl
      · rcases h with h | h
        · exact absurd h (by simp)
        · exact h
  exact ⟨rfl, hc, hc⟩

/-- Witness for C3's amended theorem, on a running worker with the flag
clear and a pending worker iteration: stopping it really leaves the
scheduler not running. -/
theorem is_running_after_stop_witness :
    is_running (init ([0] : List Nat)) = false ∧
    is_running (pause true okSink
      { run_task := some TaskStatus.running, cancelled := false
        frame_index := 0, frames := ([0] : List Nat), sent := [] }).1 = false ∧
    is_running (cancel_playback true true okSink
      { run_task := some TaskStatus.running, cancelled := false
        frame_index := 0, frames := ([0] : List Nat), sent := [] }).1 = false :=
  is_running_after_stop true okSink [0]
    { run_task := some TaskStatus.running, cancelled := false
      frame_index := 0, frames := [0], sent := [] } (Or.inl (by decide))

/-- C4: calling `run_playback` while a worker is active raises the
`RuntimeError` immediately; no state is produced, so nothing is queued and
no second worker is started. -/
theorem run_playback_raises_when_running (s : TrajectoryPlayback Frame)
    (h : is_running s = true) :
    run_playback s = Except.error RunPlaybackError.alreadyPlaying := by
  simp [run_playback, h]

/-- Witness for C4, on a running scheduler state. -/
theorem run_playback_raises_when_running_witness :
    run_playback
      { run_task := some TaskStatus.running, cancelled := false
        frame_index := 0, frames := ([0] : List Nat), sent := [] } =
      Except.error RunPlaybackError.alreadyPlaying :=
  run_playback_raises_when_running _ (by decide)

/-- C10: `reset` sets the current frame index to 0 and changes nothing
else — frames, cancellation flag, task handle and the emission log are all
untouched, in every state.  (The thread pool and the lock are identity
objects never reassigned by any method and carry no state in this model.) -/
theorem reset_touches_only_index (s : TrajectoryPlayback Frame) :
    (reset s).frame_index = 0 ∧
    (reset s).frames = s.frames ∧
    (reset s).cancelled = s.cancelled ∧
    (reset s).run_task = s.run_task ∧
    (reset s).sent = s.sent :=
  ⟨rfl, rfl, rfl, rfl, rfl⟩

/-- C5 (counterexample): `step()` does not always perform exactly one index
advance.  On a running scheduler (reachable via `run_playback`) whose worker
has already passed its loop check when `step()` sets the cancellation flag,
the `Future.result()` wait inside `step()` lets the worker emit-and-advance
once more before exiting; `step()` then emits again, so one `step()` call
moves the index from 0 to 2 and logs two emissions — not the `(0 + 1) % 3`
the claim requires. -/
theorem step_double_advance_cex :
    run_playback (init ([10, 11, 12] : List Nat)) =
      Except.ok { run_task := some TaskStatus.running, cancelled := false
                  frame_index := 0, frames := [10, 11, 12], sent := [] } ∧
    step true okSink
      { run_task := some TaskStatus.running, cancelled := false
        frame_index := 0, frames := ([10, 11, 12] : List Nat), sent := [] } =
      ({ run_task := some TaskStatus.done, cancelled := false
         frame_index := 2, frames := [10, 11, 12]
         sent := [(0, 10), (1, 11)] }, none) ∧
    (2 : Nat) ≠ (0 + 1) % 3 := by decide

/-- C5 (amended): `step()` itself performs exactly one emission and one
index advance; but when a running worker has a loop iteration in flight, the
waiting cancellation inside `step()` lets the worker emit-and-advance once
more first.  Excluding that in-flight case (and a crashed future about to
re-raise) — in particular on any idle, cleanly stopped scheduler — each
`step()` call performs exactly one emission and one index advance, and `k`
consecutive `step()` calls from index `i` leave the index at `(i + k) % N`
after exactly `k` emissions, for any non-empty frame sequence with the index
in range and a sink that does not raise. -/
theorem step_single_advance (pending : Bool) (sink : Nat → Frame → Bool)
    (s : TrajectoryPlayback Frame) (hsink : ∀ i f, sink i f = true)
    (hI : s.frame_index < s.frames.length)
    (hq1 : s.run_task = some TaskStatus.running → s.cancelled = false → pending = false)
    (hq2 : ∀ e, s.run_task = some (TaskStatus.failed e) → s.cancelled = true) :
    ((step pending sink s).2 = none ∧
     (step pending sink s).1.sent.length = s.sent.length + 1 ∧
     (step pending sink s).1.frame_index = (s.frame_index + 1) % s.frames.length) ∧
    ∀ k : Nat,
      (stepN pending sink k s).2 = none ∧
      (stepN pending sink k s).1.sent.length = s.sent.length + k ∧
      (stepN pending sink k s).1.frame_index = (s.frame_index + k) % s.frames.length := by
  obtain ⟨h2, hidx, -, hsent, -, -⟩ := step_quiet_ok pending sink s hsink hI hq1 hq2
  refine ⟨⟨h2, hsent, hidx⟩, fun k => ?_⟩
  obtain ⟨h2k, hidxk, -, hsentk⟩ := stepN_quiet_ok pending sink hsink k s hI hq1 hq2
  exact ⟨h2k, hsentk, hidxk⟩

/-- Witness for C5's amended theorem, on a running scheduler with three
frames, current index 1, whose worker is at its loop check
(`pending = false`), instantiating the iterated part at `k = 3` (a full
cycle back to 1). -/
theorem step_single_advance_witness :
    (step false okSink
      { run_task := some TaskStatus.running, cancelled := false
        frame_index := 1, frames := ([3, 4, 5] : List Nat), sent := [] }).1.sent.length = 1 ∧
    (step false okSink
      { run_task := some TaskStatus.running, cancelled := false
        frame_index := 1, frames := ([3, 4, 5] : List Nat), sent := [] }).1.frame_index = 2 ∧
    (stepN false okSink 3
      { run_task := some TaskStatus.running, cancelled := false
        frame_index := 1, frames := ([3, 4, 5] : List Nat), sent := [] }).2 = none ∧
    (stepN false okSink 3
      { run_task := some TaskStatus.running, cancelled := false
        frame_index := 1, frames := ([3, 4, 5] : List Nat), sent := [] }).1.sent.length = 3 ∧
    (stepN false okSink 3
      { run_task := some TaskStatus.running, cancelled := false
        frame_index := 1, frames := ([3, 4, 5] : List Nat), sent := [] }).1.frame_index = 1 := by
  obtain ⟨⟨-, h1, h2⟩, hk⟩ := step_single_advance false okSink
    { run_task := some TaskStatus.running, cancelled := false
      frame_index := 1, frames := ([3, 4, 5] : List Nat), sent := [] }
    (fun _ _ => rfl) (by decide) (fun _ _ => rfl) (fun e h => by simp at h)
  obtain ⟨h3, h4, h5⟩ := hk 3
  exact ⟨h1, h2, h3, h4, h5⟩

/-- C6: the current frame index stays inside `[0, N)`: it is 0 on
construction (in range for any non-empty sequence), and every operation —
emit-and-advance, `step`, a worker-loop pass, the loop exit, `cancel_playback`,
`pause`, a successful `run_playback` or `play`, and `reset` — preserves the
bound, for either sink behaviour. -/
theorem frame_index_invariant (pending : Bool) (sink : Nat → Frame → Bool)
    (frames : List Frame)
    (s : TrajectoryPlayback Frame) (hf : 0 < frames.length)
    (hI : s.frame_index < s.frames.length) :
    (init frames).frame_index < (init frames).frames.length ∧
    (step_one_frame sink s).1.frame_index < (step_one_frame sink s).1.frames.length ∧
    (step pending sink s).1.frame_index < (step pending sink s).1.frames.length ∧
    (run_pass sink s).1.frame_index < (run_pass sink s).1.frames.length ∧
    (run_exit s).frame_index < (run_exit s).frames.length ∧
    (∀ w, (cancel_playback w pending sink s).1.frame_index <
      (cancel_playback w pending sink s).1.frames.length) ∧
    (pause pending sink s).1.frame_index < (pause pending sink s).1.frames.length ∧
    (∀ s', run_playback s = Except.ok s' → s'.frame_index < s'.frames.length) ∧
    (play pending sink s).1.frame_index < (play pending sink s).1.frames.length ∧
    (reset s).frame_index < (reset s).frames.length := by
  refine ⟨hf, step_one_frame_index_lt sink s hI, step_index_lt pending sink s hI,
    run_pass_index_lt sink s hI, hI,
    fun w => cancel_playback_index_lt w pending sink s hI,
    cancel_playback_index_lt true pending sink s hI,
    ?_, play_index_lt pending sink s hI, ?_⟩
  · intro s' h
    have hs' := run_playback_ok s s' h
    subst hs'; exact hI
  · show 0 < s.frames.length
    omega

/-- Witness for C6, on a fresh two-frame scheduler. -/
theorem frame_index_invariant_witness :
    (init ([4, 5] : List Nat)).frame_index < (init ([4, 5] : List Nat)).frames.length ∧
    (step true okSink (init ([4, 5] : List Nat))).1.frame_index <
      (step true okSink (init ([4, 5] : List Nat))).1.frames.length ∧
    (cancel_playback false true okSink (init ([4, 5] : List Nat))).1.frame_index <
      (cancel_playback false true okSink (init ([4, 5] : List Nat))).1.frames.length ∧
    (reset (init ([4, 5] : List Nat))).frame_index <
      (reset (init ([4, 5] : List Nat))).frames.length := by
  obtain ⟨h1, h2, h3, h4, h5, h6, h7, h8, h9, h10⟩ :=
    frame_index_invariant true okSink [4, 5] (init ([4, 5] : List Nat))
      (by decide) (by decide)
  exact ⟨h1, h3, h6 false, h10⟩

/-- C7 (counterexample): on an empty frame sequence, `play()` neither is a
no-op nor reports an error to its caller: it returns successfully, having
stored a fresh running task (the spawned worker then dies on its own thread;
see the amended theorem), so the resulting state differs from the initial
one. -/
theorem play_empty_cex :
    play false okSink (init ([] : List Nat)) =
      ({ run_task := some TaskStatus.running, cancelled := false
         frame_index := 0, frames := [], sent := [] }, none) ∧
    ({ run_task := some TaskStatus.running, cancelled := false
       frame_index := 0, frames := ([] : List Nat), sent := [] } :
        TrajectoryPlayback Nat) ≠ init ([] : List Nat) := by decide

/-- C7 (amended): on an empty sequence, `play()` returns normally (no error
reaches the caller) after storing a running task; the spawned worker's first
loop pass terminates at once with an `IndexError` from
`self.frames[self.frame_index]` — it does not hang and never reaches the
`% 0`, so no `ZeroDivisionError` occurs — and that exception stays inside
the background task, whose future records the failure. -/
theorem play_empty_behaviour (pending : Bool) (sink : Nat → Frame → Bool) :
    play pending sink (init ([] : List Frame)) =
      ({ run_task := some TaskStatus.running, cancelled := false
         frame_index := 0, frames := [], sent := [] }, none) ∧
    run_pass sink
      { run_task := some TaskStatus.running, cancelled := false
        frame_index := 0, frames := ([] : List Frame), sent := [] } =
      ({ run_task := some (TaskStatus.failed StepError.indexError)
         cancelled := false, frame_index := 0, frames := [], sent := [] },
       some StepError.indexError) ∧
    (run_pass sink
      { run_task := some TaskStatus.running, cancelled := false
        frame_index := 0, frames := ([] : List Frame), sent := [] }).2 ≠
      some StepError.zeroDivisionError := by
  refine ⟨rfl, rfl, ?_⟩
  simp [run_pass, step_one_frame]

/-- C9: if `send_frame` raises during one emit-and-advance, the mutable
state of the scheduler is exactly what it was — in particular the frame
index is unchanged, since the index assignment comes after the emission —
and the exception propagates to the invoker: `_step_one_frame` itself
re-raises it unchanged, and a worker-loop pass propagates it out of `_run`
(so the only trace it leaves is the worker's future recording the
failure). -/
theorem sink_error_no_advance (sink : Nat → Frame → Bool)
    (s : TrajectoryPlayback Frame) (f : Frame)
    (hget : s.frames.get? s.frame_index = some f)
    (hsink : sink s.frame_index f = false) :
    step_one_frame sink s = (s, some StepError.sinkError) ∧
    (s.cancelled = false → run_pass sink s =
      ({ s with run_task := some (TaskStatus.failed StepError.sinkError) },
       some StepError.sinkError)) := by
  have h1 : step_one_frame sink s = (s, some StepError.sinkError) := by
    simp only [List.get?_eq_getElem?] at hget
    simp [step_one_frame, hget, hsink]
  exact ⟨h1, fun hc => by simp [run_pass, hc, h1]⟩

/-- Witness for C9: a one-frame scheduler with a sink that always raises. -/
theorem sink_error_no_advance_witness :
    step_one_frame (fun _ _ => false) (init ([5] : List Nat)) =
      (init [5], some StepError.sinkError) ∧
    run_pass (fun _ _ => false) (init ([5] : List Nat)) =
      ({ init ([5] : List Nat) with
          run_task := some (TaskStatus.failed StepError.sinkError) },
       some StepError.sinkError) := by
  obtain ⟨h1, h2⟩ :=
    sink_error_no_advance (fun _ _ => false) (init ([5] : List Nat)) 5
      (by decide) (by decide)
  exact ⟨h1, h2 rfl⟩

/-- C8 (counterexample): an interleaving of two concurrent `play()` callers
on a fresh scheduler in which both callers run their lock-protected
cancellation, release the lock, and only then both evaluate the
`is_running` guard — each sees no task — and both submit: the calls do not
serialize (two workers are spawned by one scheduler instance), neither
caller gets the `RuntimeError`, and the stored handle ends up pointing at
the silently queued second task while the first executes unreferenced. -/
theorem play_race_cex :
    runSched [false, false, false, true, true, true, false, true, false, true] =
      { lock := none, pcA := 5, pcB := 5, raisedA := false, raisedB := false
        handle := some PoolTask.queued, submits := 2, execCount := 1 } := by decide

/-- `setPc` does not touch the pool occupancy. -/
theorem setPc_execCount (t : Bool) (pc : Nat) (s : PlayRace) :
    (setPc t pc s).execCount = s.execCount := by
  cases t <;> rfl

/-- `setRaised` does not touch the pool occupancy. -/
theorem setRaised_execCount (t : Bool) (s : PlayRace) :
    (setRaised t s).execCount = s.execCount := by
  cases t <;> rfl

/-- A cancellation can only release the pool thread, never occupy it. -/
theorem cancelSys_execCount_le (s : PlayRace) :
    (cancelSys s).execCount ≤ s.execCount := by
  unfold cancelSys
  split
  · exact Nat.sub_le _ _
  · exact Nat.le_refl _

/-- A submit occupies the single pool thread only when it is free. -/
theorem submitSys_execCount_le (s : PlayRace) (h : s.execCount ≤ 1) :
    (submitSys s).execCount ≤ 1 := by
  unfold submitSys
  split
  · exact Nat.le_refl _
  · exact h

/-- One step of either racing thread keeps the pool occupancy at most 1. -/
theorem stepSys_execCount_le (t : Bool) (s : PlayRace) (h : s.execCount ≤ 1) :
    (stepSys t s).execCount ≤ 1 := by
  unfold stepSys
  split
  · split
    · rw [setPc_execCount]; exact h
    · exact h
  · rw [setPc_execCount]
    exact Nat.le_trans (cancelSys_execCount_le s) h
  · rw [setPc_execCount]; exact h
  · split
    · rw [setPc_execCount, setRaised_execCount]; exact h
    · rw [setPc_execCount]; exact h
  · rw [setPc_execCount]; exact submitSys_execCount_le s h
  · exact h

/-- C8 (amended): whatever the interleaving of the two `play()` callers, the
`max_workers=1` thread pool executes at most one worker at any point — the
single-worker guarantee comes from the pool, not from the lock, which (as
the counterexample shows) does not serialize the `is_running`-check-and-submit
part of `play`. -/
theorem at_most_one_executing_worker :
    ∀ sched : List Bool, (runSched sched).execCount ≤ 1 := by
  have main : ∀ (l : List Bool) (s : PlayRace), s.execCount ≤ 1 →
      (l.foldl (fun s t => stepSys t s) s).execCount ≤ 1 := by
    intro l
    induction l with
    | nil => intro s hs; exact hs
    | cons t rest ih => intro s hs; exact ih _ (stepSys_execCount_le t s hs)
  intro sched
  exact main sched raceInit (by decide)

end NarupaRosetta
